import Mathlib

/-!
Verification development for the 365bot repository (lead management,
KPI notification, payment-link creation).  The definitions below are a
shallow embedding of the Python source in `src/main.py` and
`src/unnamed/part_000` ("main (2).py"): pure functions become Lean
functions, HTTP calls become explicit outcome values, Python `None`
becomes `Option`, and a Python run-time fault (TypeError / OverflowError)
becomes `Option.none` in the result type.
-/

namespace Bot365

/-! ### Exceptions and network outcomes

`requests.HTTPError`, `requests.ConnectionError` and `requests.Timeout`
are all subclasses of `requests.RequestException`; the tenacity retry
filter `retry_if_exception_type((requests.RequestException,))` matches
every one of them. -/

inductive PyExc where
  | httpError (status : Nat) (body : String)
  | connectionError
  | timeout
  | otherError
deriving Repr, DecidableEq

/-- Whether the exception is a `requests.RequestException` (the class
matched by the tenacity retry filter in every wrapper). -/
def isRequestException : PyExc → Bool
  | .httpError _ _ => true
  | .connectionError => true
  | .timeout => true
  | .otherError => false

/-- Outcome of one raw network call attempt. -/
inductive NetOutcome where
  | response (status : Nat) (body : String)
  | raiseConn
  | raiseTimeout
deriving Repr, DecidableEq

/-- One un-retried attempt of `send_line_message`: a 200 response
succeeds; any other status is logged, then `response.raise_for_status()`
raises `HTTPError` exactly when the status is in 400..599 (for other
statuses it is a no-op and the function returns normally). A
connection-level failure raises the corresponding exception. -/
def sendLineOnce : NetOutcome → Except PyExc Unit
  | .response s b =>
      if s = 200 then .ok ()
      else if 400 ≤ s ∧ s < 600 then .error (.httpError s b)
      else .ok ()
  | .raiseConn => .error .connectionError
  | .raiseTimeout => .error .timeout

/-- Tenacity retry loop: `i` is the index of the current attempt (the
environment `env` gives the network outcome of each attempt), `fuel` the
number of retries still allowed.  An exception matching the retry filter
is retried while fuel remains; any other exception, or fuel exhaustion,
propagates.  Returns the final result and the number of attempts made. -/
def retryAux (once : NetOutcome → Except PyExc Unit) (env : Nat → NetOutcome) :
    Nat → Nat → Except PyExc Unit × Nat
  | i, fuel =>
    match once (env i), fuel with
    | .ok a, _ => (.ok a, i + 1)
    | .error e, 0 => (.error e, i + 1)
    | .error e, fuel' + 1 =>
        if isRequestException e then retryAux once env (i + 1) fuel'
        else (.error e, i + 1)

/-- The decorator `@retry(stop=stop_after_attempt(3),
retry=retry_if_exception_type((RequestException,)))`: at most 3 attempts
in total. -/
def tenacityCall (once : NetOutcome → Except PyExc Unit) (env : Nat → NetOutcome) :
    Except PyExc Unit × Nat :=
  retryAux once env 0 2

/-! ### Lead records and KPI metrics -/

/-- A Notion lead page, reduced to the properties the program reads.
`price` models `props.get("Price", {}).get("number", 0)`:
`none` = the `Price`/`number` key is absent (Python default `0`),
`some none` = the key is present with value `null` (Python `None`),
`some (some n)` = a number.  `external_id` is the list of
`rich_text` fragment contents of the `External_ID` property. -/
structure LeadPage where
  payment_status : Option String
  price : Option (Option Int)
  external_id : List String
deriving Repr, DecidableEq

structure Metrics where
  total_leads : Nat
  conversions : Nat
  revenue : Int
  cvr : Rat
deriving Repr, DecidableEq

/-- part_000's price read: `props.get("Price", {}).get("number", 0) or 0`
(missing key and `None` both coerce to `0`). -/
def priceOr0 : Option (Option Int) → Int
  | none => 0
  | some none => 0
  | some (some n) => n

/-- main.py's price read: `props.get("Price", {}).get("number", 0)`
(missing key defaults to `0`, but a present `null` stays `None`). -/
def priceVal : Option (Option Int) → Option Int
  | none => some 0
  | some v => v

/-- Embedding of `extract_lead_metrics` from part_000 (src/unnamed/part_000,
lines 133-151): count leads, count `Payment_Status = "Completed"`
conversions, sum their prices, and compute the conversion rate with a
zero guard. -/
def metricsStep (acc : Nat × Int) (p : LeadPage) : Nat × Int :=
  if p.payment_status = some "Completed" then (acc.1 + 1, acc.2 + priceOr0 p.price)
  else acc

def extract_lead_metrics (leads : List LeadPage) : Metrics :=
  let cr := leads.foldl metricsStep (0, 0)
  { total_leads := leads.length
    conversions := cr.1
    revenue := cr.2
    cvr := if leads.length > 0 then (cr.1 : Rat) / (leads.length : Rat) else 0 }

/-- Embedding of `extract_lead_metrics` from main.py (lines 200-226).  The only
difference from part_000 is the missing `or 0`: a `Completed` page whose
`Price.number` is `null` makes `revenue += price_val` a
`TypeError` (`int + NoneType`), modelled as `none`. -/
def mainMetricsStep (acc : Option (Nat × Int)) (p : LeadPage) : Option (Nat × Int) :=
  match acc with
  | none => none
  | some (c, r) =>
      if p.payment_status = some "Completed" then
        match priceVal p.price with
        | none => none
        | some n => some (c + 1, r + n)
      else some (c, r)

def extract_lead_metrics_main (leads : List LeadPage) : Option Metrics :=
  let cr := leads.foldl mainMetricsStep (some (0, 0))
  match cr with
  | none => none
  | some (c, r) =>
      some { total_leads := leads.length
             conversions := c
             revenue := r
             cvr := if leads.length > 0 then (c : Rat) / (leads.length : Rat) else 0 }

/-! ### Days-remaining forecast (`send_daily_kpi_notification`) -/

/-- The monthly revenue target constant as written in the source
(`month_target = 1_000_000`, src/main.py line 284 and
src/unnamed/part_000 line 198).  The adjacent comment in both files
reads `1,000万円`, i.e. 10,000,000 yen. -/
def month_target : Int := 1000000

/-- Python `int()` on a float/exact ratio: truncation toward zero. -/
def pyTrunc (q : Rat) : Int := if 0 ≤ q then q.floor else q.ceil

/-- The `達成予測残日数` (days-remaining) component of the daily KPI
message, from src/unnamed/part_000 lines 197-208 (identically
src/main.py lines 283-296).  `daysElapsed` is the injected day-of-month
count (always ≥ 1 when computed from real dates).  `none` models the
`OverflowError` of `int(float("inf"))`, reachable only when
`daysElapsed = 0`. -/
def days_left_msg (revenue : Rat) (daysElapsed : Nat) : Option String :=
  if revenue > 0 then
    let avg : Rat := if daysElapsed > 0 then revenue / (daysElapsed : Rat) else 0
    if avg > 0 then
      let daysLeft : Rat := ((month_target : Rat) - revenue) / avg
      if daysLeft < 0 then some "目標達成済み"
      else some ("あと" ++ toString (pyTrunc daysLeft) ++ "日")
    else none
  else some "データ不足"

/-! ### Recipient fan-out -/

/-- Result of a send loop over recipients: which recipients were
attempted, which failures were caught and logged, and whether an
exception escaped the loop. -/
structure FanoutResult where
  attempted : List String
  logged_failures : List String
  raised : Option PyExc
deriving Repr, DecidableEq

/-- The guarded send loop (`for uid ...: try: send_line_message(uid, ...)
except Exception as e: logging.error(...)`), used by
`send_daily_kpi_notification` in both files and by both notification
loops of `process_lead_registration` in src/unnamed/part_000
(lines 210-214, 254-258, 266-270).  `send uid` is the permanent outcome
of `send_line_message(uid, msg)` after its own retries. -/
def fanout_guarded (send : String → Except PyExc Unit) : List String → FanoutResult
  | [] => ⟨[], [], none⟩
  | u :: rest =>
      let r := fanout_guarded send rest
      match send u with
      | .ok _ => ⟨u :: r.attempted, r.logged_failures, r.raised⟩
      | .error _ => ⟨u :: r.attempted, u :: r.logged_failures, r.raised⟩

/-- The unguarded send loop of `process_lead_registration` in
src/main.py (lines 367-368: `for uid in resolve_notify_user_ids(config):
send_line_message(uid, msg)`, no try/except): the first permanent send
failure propagates out of the loop, and the remaining recipients are
never attempted. -/
def fanout_unguarded (send : String → Except PyExc Unit) : List String → FanoutResult
  | [] => ⟨[], [], none⟩
  | u :: rest =>
      match send u with
      | .ok _ =>
          let r := fanout_unguarded send rest
          ⟨u :: r.attempted, r.logged_failures, r.raised⟩
      | .error e => ⟨[u], [], some e⟩

/-! ### Configuration and recipient resolution -/

structure Genre where
  product_name : Option String
  price : Option Int
  expected_cvr : Option Rat
  notify_user_ids : List String
deriving Repr, DecidableEq

structure Config where
  genre : List Genre
deriving Repr, DecidableEq

/-- The raw id list built by `resolve_notify_user_ids` before
deduplication: each genre's `notify_user_ids` in configured order, then
the `LINE_USER_ID` fallback when it is non-empty. -/
def rawNotifyIds (lineUserId : String) (cfg : Config) : List String :=
  (cfg.genre.map Genre.notify_user_ids).flatten ++
    (if lineUserId ≠ "" then [lineUserId] else [])

/-- The dedup loop of `resolve_notify_user_ids`
(`if uid and uid not in seen: seen.add(uid); result.append(uid)`):
keep an id when it is non-empty (truthy) and not seen yet. -/
def dedupKeepFirst (seen : List String) : List String → List String
  | [] => []
  | u :: rest =>
      if u ≠ "" ∧ u ∉ seen then u :: dedupKeepFirst (u :: seen) rest
      else dedupKeepFirst seen rest

/-- Embedding of `resolve_notify_user_ids` (src/main.py lines 49-63,
src/unnamed/part_000 lines 44-58).  `lineUserId` is the ambient
`LINE_USER_ID` environment value (already stripped). -/
def resolve_notify_user_ids (lineUserId : String) (cfg : Config) : List String :=
  dedupKeepFirst [] (rawNotifyIds lineUserId cfg)

/-! ### Lead registration (`process_lead_registration`) -/

structure FormData where
  external_id : String
  email : String
  phone : String
  product : String
deriving Repr, DecidableEq

/-- The duplicate test of the registration dedup scan
(`if ext_info and ext_info[0]["text"]["content"] == form_data["external_id"]`):
the fragment list is non-empty and the FIRST fragment's content equals
the incoming identifier. -/
def isDuplicate (ext : String) (page : LeadPage) : Bool :=
  match page.external_id with
  | [] => false
  | c :: _ => c = ext

def defaultGenre : Genre := ⟨none, none, none, []⟩

/-- Genre lookup of `process_lead_registration` (part_000 lines 226-233):
first genre whose `product_name` equals the submitted product, else the
first configured genre, else an empty genre. -/
def selectGenre (cfg : Config) (product : String) : Genre :=
  match cfg.genre.find? (fun g => g.product_name = some product) with
  | some g => g
  | none => cfg.genre.headD defaultGenre

/-- The Notion property set built for a new lead (part_000
lines 237-248), restricted to the properties `LeadPage` models:
`Payment_Status = "Pending"`, `Price = genre price or 0`, and an
`External_ID` rich-text array with exactly one fragment holding the
submitted identifier. -/
def buildLeadPage (form : FormData) (g : Genre) : LeadPage :=
  { payment_status := some "Pending"
    price := some (some (g.price.getD 0))
    external_id := [form.external_id] }

/-- Observable effect of one `process_lead_registration` run
(part_000 lines 216-270) on the lead store: `store` is the store after
the run (the dedup scan reads the store it is given), `inserted` the
page created (if any), `checkout_attempted` whether payment-link
creation was reached, `notified` the recipients a message was sent to.
`insertOk` abstracts whether `create_notion_lead` succeeds. -/
structure RegResult where
  store : List LeadPage
  inserted : Option LeadPage
  checkout_attempted : Bool
  notified : List String
deriving Repr, DecidableEq

def process_lead_registration (insertOk : Bool) (lineUserId : String)
    (form : FormData) (cfg : Config) (stored : List LeadPage) : RegResult :=
  if stored.any (isDuplicate form.external_id) then
    ⟨stored, none, false, []⟩
  else
    let g := selectGenre cfg form.product
    let page := buildLeadPage form g
    if insertOk then
      ⟨stored ++ [page], some page, true, resolve_notify_user_ids lineUserId cfg⟩
    else
      ⟨stored, none, false, resolve_notify_user_ids lineUserId cfg⟩

/-! ### Stripe checkout-session requests -/

/-- The form-encoded request body of `create_stripe_checkout_link` in
src/main.py (lines 247-256): one-time `payment` mode. -/
def checkout_data_main (product_name : String) (price : Int) : List (String × String) :=
  [("payment_method_types[]", "card"),
   ("mode", "payment"),
   ("line_items[0][price_data][currency]", "jpy"),
   ("line_items[0][price_data][unit_amount]", toString (price * 100)),
   ("line_items[0][price_data][product_data][name]", product_name),
   ("line_items[0][quantity]", "1"),
   ("success_url", "https://example.com/success"),
   ("cancel_url", "https://example.com/cancel")]

/-- The form-encoded request body of `create_stripe_checkout_link` in
src/unnamed/part_000 (lines 162-172): `subscription` mode with a
monthly recurring interval. -/
def checkout_data_sub (product_name : String) (price : Int) : List (String × String) :=
  [("payment_method_types[]", "card"),
   ("mode", "subscription"),
   ("line_items[0][price_data][currency]", "jpy"),
   ("line_items[0][price_data][unit_amount]", toString (price * 100)),
   ("line_items[0][price_data][recurring][interval]", "month"),
   ("line_items[0][price_data][product_data][name]", product_name),
   ("line_items[0][quantity]", "1"),
   ("success_url", "https://example.com/success"),
   ("cancel_url", "https://example.com/cancel")]

/-! ### Helper lemmas -/

lemma retryAux_attempts_le (once : NetOutcome → Except PyExc Unit) (env : Nat → NetOutcome) :
    ∀ fuel i, (retryAux once env i fuel).2 ≤ i + fuel + 1 := by
  intro fuel
  induction fuel with
  | zero =>
      intro i
      unfold retryAux
      match h : once (env i) with
      | .ok a => simp [h]
      | .error e => simp [h]
  | succ f ih =>
      intro i
      unfold retryAux
      match h : once (env i) with
      | .ok a => simp [h]
      | .error e =>
          simp only [h]
          by_cases hr : isRequestException e
          · simpa [hr] using le_trans (ih (i + 1)) (by omega)
          · simp [hr]

/-! ### C2: retry policy of the outbound-call wrappers -/

/-- C2 counterexample.  The claim says a non-success HTTP status makes the
wrapped call fail immediately and permanently with no retry.  In the code,
`response.raise_for_status()` raises `requests.HTTPError`, which is a
subclass of `requests.RequestException` — the very class the tenacity
filter retries on.  Concretely: a 500 response on the first attempt is an
HTTP error, yet the call is retried and succeeds on the second attempt
(2 attempts, final result success, not a permanent failure).  Moreover a
non-success status below 400 (e.g. 302) does not make the call fail at
all: `raise_for_status` is a no-op there and the wrapper returns success
on the first attempt. -/
theorem C2_counterexample :
    sendLineOnce (.response 500 "Internal Server Error") =
      .error (.httpError 500 "Internal Server Error") ∧
    isRequestException (.httpError 500 "Internal Server Error") = true ∧
    tenacityCall sendLineOnce
      (fun i => if i = 0 then .response 500 "Internal Server Error" else .response 200 "OK") =
      (.ok (), 2) ∧
    tenacityCall sendLineOnce (fun _ => .response 302 "Found") = (.ok (), 1) := by
  refine ⟨rfl, rfl, ?_, ?_⟩ <;> rfl

/-- C2 amended: every wrapped call makes at most 3 attempts; a response
with status 400-599 is logged and raises `HTTPError`, which counts as a
retryable `RequestException`, so HTTP-error responses are retried exactly
like connection-level/timeout failures — three consecutive retryable
failures exhaust the attempt cap and the last error propagates, a
retryable failure followed by a success returns successfully after 2
attempts, and a non-`RequestException` error propagates after a single
attempt.  A non-200 status outside 400-599 is logged but the call
returns success. -/
theorem C2_amended_retry_policy :
    (∀ env : Nat → NetOutcome, (tenacityCall sendLineOnce env).2 ≤ 3) ∧
    (∀ s b, 400 ≤ s → s < 600 →
      sendLineOnce (.response s b) = .error (.httpError s b) ∧
      isRequestException (.httpError s b) = true) ∧
    (∀ s b, s ≠ 200 → ¬(400 ≤ s ∧ s < 600) → sendLineOnce (.response s b) = .ok ()) ∧
    (∀ (env : Nat → NetOutcome) (e0 e1 e2 : PyExc),
      sendLineOnce (env 0) = .error e0 → isRequestException e0 = true →
      sendLineOnce (env 1) = .error e1 → isRequestException e1 = true →
      sendLineOnce (env 2) = .error e2 → isRequestException e2 = true →
      tenacityCall sendLineOnce env = (.error e2, 3)) ∧
    (∀ (env : Nat → NetOutcome) (e : PyExc),
      sendLineOnce (env 0) = .error e → isRequestException e = true →
      sendLineOnce (env 1) = .ok () →
      tenacityCall sendLineOnce env = (.ok (), 2)) ∧
    (∀ (env : Nat → NetOutcome) (e : PyExc),
      sendLineOnce (env 0) = .error e → isRequestException e = false →
      tenacityCall sendLineOnce env = (.error e, 1)) := by
  refine ⟨?_, ?_, ?_, ?_, ?_, ?_⟩
  · intro env
    simpa using retryAux_attempts_le sendLineOnce env 2 0
  · intro s b h4 h6
    have hne : ¬ s = 200 := by omega
    constructor
    · simp [sendLineOnce, hne, h4, h6]
    · rfl
  · intro s b hne hnot
    simp [sendLineOnce, hne, hnot]
  · intro env e0 e1 e2 h0 r0 h1 r1 h2 r2
    simp [tenacityCall, retryAux, h0, r0, h1, r1, h2, r2]
  · intro env e h0 r0 h1
    simp [tenacityCall, retryAux, h0, r0, h1]
  · intro env e h0 r0
    simp [tenacityCall, retryAux, h0, r0]

/-- Witness for `C2_amended_retry_policy` at concrete inputs: three
consecutive 500 responses exhaust the 3-attempt cap and surface the HTTP
error, and a connection error followed by a 200 response succeeds on the
second attempt. -/
theorem C2_amended_retry_policy_witness :
    tenacityCall sendLineOnce (fun _ => .response 500 "x") =
      (.error (.httpError 500 "x"), 3) ∧
    tenacityCall sendLineOnce
      (fun i => if i = 0 then .raiseConn else .response 200 "OK") = (.ok (), 2) := by
  constructor
  · exact C2_amended_retry_policy.2.2.2.1 (fun _ => .response 500 "x")
      (.httpError 500 "x") (.httpError 500 "x") (.httpError 500 "x")
      rfl rfl rfl rfl rfl rfl
  · exact C2_amended_retry_policy.2.2.2.2.1
      (fun i => if i = 0 then .raiseConn else .response 200 "OK")
      .connectionError rfl rfl rfl

/-! ### C1: monthly target constant and the 500,000-at-day-10 forecast -/

/-- C1: the code's monthly target constant is 1,000,000 — one tenth of
the 10,000,000 (`1,000万円`) announced by the comment on the very same
source line and by the spec.  Consequently, at revenue 500,000 on day 10
the code computes remaining = 500,000 and daysLeft = 10 and renders
"あと10日" (10 days remaining), not the 190 days the claim requires. -/
theorem C1_month_target_eval :
    month_target = 1000000 ∧
    days_left_msg 500000 10 = some "あと10日" ∧
    days_left_msg 500000 10 ≠ some "あと190日" := by
  refine ⟨rfl, ?_, ?_⟩
  · norm_num [days_left_msg, month_target, pyTrunc, Rat.floor_def']
    decide
  · intro h
    rw [show days_left_msg 500000 10 = some "あと10日" by
          norm_num [days_left_msg, month_target, pyTrunc, Rat.floor_def']
          decide] at h
    simp at h

/-! ### C5: achievement-forecast branches -/

/-- C5 counterexample.  The claim says every run with positive revenue at
least equal to the monthly target reports "target already achieved".  At
revenue exactly equal to the target (on day 1), daysLeft = 0, the code's
test `days_left < 0` is false, and the message is "あと0日" (0 days
remaining), not "目標達成済み". -/
theorem C5_counterexample :
    days_left_msg (month_target : Rat) 1 = some "あと0日" ∧
    (some "あと0日" : Option String) ≠ some "目標達成済み" := by
  constructor
  · norm_num [days_left_msg, month_target, pyTrunc, Rat.floor_def']
    decide
  · decide

/-- C5 amended: with at least one day elapsed, revenue strictly above the
monthly target reports "target already achieved"; revenue exactly equal
to the target falls into the truncation branch and reports 0 days
remaining; any other positive revenue reports the integer truncation of
daysLeft = (target - revenue) * daysElapsed / revenue; revenue 0 reports
"insufficient data". -/
theorem C5_amended_forecast (rev : Rat) (d : Nat) (hd : 0 < d) :
    ((month_target : Rat) < rev → days_left_msg rev d = some "目標達成済み") ∧
    (rev = (month_target : Rat) → days_left_msg rev d = some "あと0日") ∧
    (0 < rev → rev < (month_target : Rat) →
      days_left_msg rev d =
        some ("あと" ++ toString (pyTrunc (((month_target : Rat) - rev) * d / rev)) ++ "日")) ∧
    (rev = 0 → days_left_msg rev d = some "データ不足") := by
  have hdq : (0 : Rat) < (d : Rat) := by exact_mod_cast hd
  refine ⟨?_, ?_, ?_, ?_⟩
  · intro hlt
    have hrev : (0 : Rat) < rev := lt_trans (by norm_num [month_target]) hlt
    have havg : (0 : Rat) < rev / (d : Rat) := div_pos hrev hdq
    have hneg : ((month_target : Rat) - rev) / (rev / (d : Rat)) < 0 :=
      div_neg_of_neg_of_pos (by linarith) havg
    simp only [days_left_msg, if_pos hrev, if_pos hd, if_pos havg, if_pos hneg]
  · intro heq
    subst heq
    have hrev : (0 : Rat) < (month_target : Rat) := by norm_num [month_target]
    have havg : (0 : Rat) < (month_target : Rat) / (d : Rat) := div_pos hrev hdq
    have hzero : ((month_target : Rat) - (month_target : Rat)) / ((month_target : Rat) / (d : Rat)) = 0 := by
      simp
    simp only [days_left_msg, if_pos hrev, if_pos hd, if_pos havg, hzero]
    norm_num [pyTrunc, Rat.floor_def']
    decide
  · intro hpos hlt
    have havg : (0 : Rat) < rev / (d : Rat) := div_pos hpos hdq
    have hdl : ((month_target : Rat) - rev) / (rev / (d : Rat)) =
        ((month_target : Rat) - rev) * (d : Rat) / rev := by
      field_simp
    have hnn : 0 ≤ ((month_target : Rat) - rev) / (rev / (d : Rat)) :=
      div_nonneg (by linarith) (le_of_lt havg)
    have hnlt : ¬ ((month_target : Rat) - rev) / (rev / (d : Rat)) < 0 := not_lt.mpr hnn
    rw [hdl] at hnlt
    simp only [days_left_msg, if_pos hpos, if_pos hd, if_pos havg, hdl, if_neg hnlt]
  · intro heq
    subst heq
    simp [days_left_msg]

/-- Witness for `C5_amended_forecast` at concrete inputs: revenue
2,000,000 on day 1 reports achieved; revenue equal to the target reports
0 days; revenue 0 reports insufficient data. -/
theorem C5_amended_forecast_witness :
    days_left_msg 2000000 1 = some "目標達成済み" ∧
    days_left_msg (month_target : Rat) 3 = some "あと0日" ∧
    days_left_msg 0 7 = some "データ不足" := by
  refine ⟨?_, ?_, ?_⟩
  · exact (C5_amended_forecast 2000000 1 (by norm_num)).1 (by norm_num [month_target])
  · exact (C5_amended_forecast (month_target : Rat) 3 (by norm_num)).2.1 rfl
  · exact (C5_amended_forecast 0 7 (by norm_num)).2.2.2 rfl

/-! ### C3: per-recipient fan-out isolation -/

/-- C3: the guarded send loop (src/unnamed/part_000's KPI loop and both
of its lead-registration notification loops, and src/main.py's KPI loop)
attempts every recipient, logs exactly the failing ones, and never lets
an exception escape — for every send-outcome function and every
recipient list.  The unguarded loop of src/main.py's
`process_lead_registration` (lines 367-368, no try/except) violates the
claim: with recipients ["A", "B"] where the send to "A" fails
permanently, only "A" is attempted, nothing is logged, "B" never
receives the message, and the exception escapes the use case. -/
theorem C3_fanout_isolation :
    (∀ (send : String → Except PyExc Unit) (uids : List String),
      (fanout_guarded send uids).attempted = uids ∧
      (fanout_guarded send uids).raised = none ∧
      (fanout_guarded send uids).logged_failures =
        uids.filter (fun u => match send u with | .ok _ => false | .error _ => true)) ∧
    fanout_unguarded
      (fun u => if u = "A" then .error .connectionError else .ok ()) ["A", "B"] =
      ⟨["A"], [], some .connectionError⟩ := by
  constructor
  · intro send uids
    induction uids with
    | nil => exact ⟨rfl, rfl, rfl⟩
    | cons u rest ih =>
        obtain ⟨h1, h2, h3⟩ := ih
        match h : send u with
        | .ok a => exact ⟨by simp [fanout_guarded, h, h1], by simp [fanout_guarded, h, h2],
            by simp [fanout_guarded, h, h3, List.filter]⟩
        | .error e => exact ⟨by simp [fanout_guarded, h, h1], by simp [fanout_guarded, h, h2],
            by simp [fanout_guarded, h, h3, List.filter]⟩
  · rfl

/-! ### C4: registration dedup is idempotent -/

/-- C4: when no stored lead matches the incoming external identifier,
registration appends exactly one record carrying that identifier (as the
single rich-text fragment of its External_ID), and running the
registration again on the resulting store — with the same identifier —
is a no-op: the store is unchanged and no insert, no payment-link
attempt and no notification happens, whether or not the second insert
would have succeeded. -/
theorem C4_dedup_idempotent (lid : String) (form : FormData) (cfg : Config)
    (stored : List LeadPage) (b : Bool)
    (H : ∀ p ∈ stored, isDuplicate form.external_id p = false) :
    (process_lead_registration true lid form cfg stored).store =
      stored ++ [buildLeadPage form (selectGenre cfg form.product)] ∧
    (process_lead_registration true lid form cfg stored).store.countP
      (isDuplicate form.external_id) = 1 ∧
    process_lead_registration b lid form cfg
        (process_lead_registration true lid form cfg stored).store =
      ⟨(process_lead_registration true lid form cfg stored).store, none, false, []⟩ := by
  have hany : stored.any (isDuplicate form.external_id) = false :=
    List.any_eq_false.mpr (by intro p hp; simp [H p hp])
  have hdup : isDuplicate form.external_id
      (buildLeadPage form (selectGenre cfg form.product)) = true := by
    simp [isDuplicate, buildLeadPage]
  have hstore : (process_lead_registration true lid form cfg stored).store =
      stored ++ [buildLeadPage form (selectGenre cfg form.product)] := by
    simp [process_lead_registration, hany]
  refine ⟨hstore, ?_, ?_⟩
  · rw [hstore, List.countP_append]
    have h0 : stored.countP (isDuplicate form.external_id) = 0 :=
      List.countP_eq_zero.mpr (by intro p hp; simp [H p hp])
    simp [h0, List.countP_cons, hdup]
  · have hany3 : (stored ++ [buildLeadPage form (selectGenre cfg form.product)]).any
        (isDuplicate form.external_id) = true := by
      rw [List.any_append]
      simp [hdup]
    rw [hstore]
    unfold process_lead_registration
    rw [if_pos hany3]

/-- Witness for `C4_dedup_idempotent`: a concrete registration of
external id "E1" into an empty store, followed by a duplicate attempt. -/
theorem C4_dedup_idempotent_witness :
    (process_lead_registration true "U" ⟨"E1", "e", "p", "prod"⟩ ⟨[]⟩ []).store =
      [] ++ [buildLeadPage ⟨"E1", "e", "p", "prod"⟩ (selectGenre ⟨[]⟩ "prod")] ∧
    (process_lead_registration true "U" ⟨"E1", "e", "p", "prod"⟩ ⟨[]⟩ []).store.countP
      (isDuplicate "E1") = 1 ∧
    process_lead_registration true "U" ⟨"E1", "e", "p", "prod"⟩ ⟨[]⟩
        (process_lead_registration true "U" ⟨"E1", "e", "p", "prod"⟩ ⟨[]⟩ []).store =
      ⟨(process_lead_registration true "U" ⟨"E1", "e", "p", "prod"⟩ ⟨[]⟩ []).store,
        none, false, []⟩ :=
  C4_dedup_idempotent "U" ⟨"E1", "e", "p", "prod"⟩ ⟨[]⟩ [] true (by simp)

/-! ### C10: the dedup scan looks only at the first rich-text fragment -/

/-- C10: a stored record counts as a duplicate of the incoming
identifier exactly when its External_ID fragment list is non-empty and
the FIRST fragment alone equals the identifier.  A record whose value
"abc" is split over the fragments ["ab", "c"] (equal only after
concatenation) is not detected — a registration for "abc" against such
a store proceeds to insert — and a record with an empty fragment list is
never detected either. -/
theorem C10_first_fragment_dedup :
    (∀ (ext : String) (page : LeadPage),
      isDuplicate ext page = true ↔
        (page.external_id ≠ [] ∧ page.external_id.head? = some ext)) ∧
    isDuplicate "abc" ⟨none, none, ["ab", "c"]⟩ = false ∧
    String.join ["ab", "c"] = "abc" ∧
    isDuplicate "x" ⟨none, none, []⟩ = false ∧
    (process_lead_registration true "" ⟨"abc", "", "", "p"⟩ ⟨[]⟩
        [⟨none, none, ["ab", "c"]⟩]).inserted =
      some (buildLeadPage ⟨"abc", "", "", "p"⟩ defaultGenre) := by
  refine ⟨?_, by decide, by decide, by decide, by decide⟩
  intro ext page
  cases h : page.external_id with
  | nil => simp [isDuplicate, h]
  | cons c rest => simp [isDuplicate, h]

/-! ### Metrics fold lemmas -/

lemma metricsStep_foldl_fst_le (leads : List LeadPage) :
    ∀ c r, (leads.foldl metricsStep (c, r)).1 ≤ c + leads.length := by
  induction leads with
  | nil => intro c r; simp
  | cons p rest ih =>
      intro c r
      rw [List.foldl_cons]
      by_cases h : p.payment_status = some "Completed"
      · calc (rest.foldl metricsStep (metricsStep (c, r) p)).1
            ≤ (metricsStep (c, r) p).1 + rest.length := by
              rw [show metricsStep (c, r) p = ((metricsStep (c, r) p).1, (metricsStep (c, r) p).2) from rfl]
              exact ih _ _
          _ ≤ c + (p :: rest).length := by
              simp [metricsStep, h, List.length_cons]
              omega
      · calc (rest.foldl metricsStep (metricsStep (c, r) p)).1
            ≤ (metricsStep (c, r) p).1 + rest.length := by
              rw [show metricsStep (c, r) p = ((metricsStep (c, r) p).1, (metricsStep (c, r) p).2) from rfl]
              exact ih _ _
          _ ≤ c + (p :: rest).length := by
              simp [metricsStep, h, List.length_cons]

lemma metricsStep_foldl_snd_nonneg (leads : List LeadPage)
    (hp : ∀ p ∈ leads, 0 ≤ priceOr0 p.price) :
    ∀ c (r : Int), 0 ≤ r → 0 ≤ (leads.foldl metricsStep (c, r)).2 := by
  induction leads with
  | nil => intro c r hr; simpa using hr
  | cons p rest ih =>
      intro c r hr
      rw [List.foldl_cons]
      have hrest : ∀ q ∈ rest, 0 ≤ priceOr0 q.price :=
        fun q hq => hp q (List.mem_cons_of_mem p hq)
      have hstep : 0 ≤ (metricsStep (c, r) p).2 := by
        have := hp p (List.mem_cons_self p rest)
        by_cases h : p.payment_status = some "Completed"
        · simp only [metricsStep, if_pos h]
          exact add_nonneg hr this
        · simpa [metricsStep, h] using hr
      rw [show metricsStep (c, r) p = ((metricsStep (c, r) p).1, (metricsStep (c, r) p).2) from rfl]
      exact ih hrest _ _ hstep

lemma priceVal_of_not_null {v : Option (Option Int)} (h : v ≠ some none) :
    priceVal v = some (priceOr0 v) := by
  match v with
  | none => rfl
  | some none => exact absurd rfl h
  | some (some n) => rfl

lemma mainMetricsStep_foldl_agree (leads : List LeadPage)
    (h : ∀ p ∈ leads, p.payment_status = some "Completed" → p.price ≠ some none) :
    ∀ c (r : Int), leads.foldl mainMetricsStep (some (c, r)) =
      some (leads.foldl metricsStep (c, r)) := by
  induction leads with
  | nil => intro c r; rfl
  | cons p rest ih =>
      intro c r
      have hrest : ∀ q ∈ rest, q.payment_status = some "Completed" → q.price ≠ some none :=
        fun q hq => h q (List.mem_cons_of_mem p hq)
      rw [List.foldl_cons, List.foldl_cons]
      by_cases hc : p.payment_status = some "Completed"
      · have hnn : p.price ≠ some none := h p (List.mem_cons_self p rest) hc
        have : mainMetricsStep (some (c, r)) p = some (metricsStep (c, r) p) := by
          simp [mainMetricsStep, metricsStep, hc, priceVal_of_not_null hnn]
        rw [this]
        rw [show metricsStep (c, r) p = ((metricsStep (c, r) p).1, (metricsStep (c, r) p).2) from rfl]
        exact ih hrest _ _
      · have : mainMetricsStep (some (c, r)) p = some (metricsStep (c, r) p) := by
          simp [mainMetricsStep, metricsStep, hc]
        rw [this]
        rw [show metricsStep (c, r) p = ((metricsStep (c, r) p).1, (metricsStep (c, r) p).2) from rfl]
        exact ih hrest _ _

/-! ### C7: metric bounds -/

/-- C7 counterexample.  The claim asserts revenue >= 0 for ANY Price
values; a single Completed record with Price -1 yields revenue -1. -/
theorem C7_counterexample :
    (extract_lead_metrics [⟨some "Completed", some (some (-1)), []⟩]).revenue = -1 ∧
    ¬ (0 ≤ (extract_lead_metrics [⟨some "Completed", some (some (-1)), []⟩]).revenue) := by
  constructor
  · rfl
  · intro h
    simp [extract_lead_metrics, metricsStep, priceOr0] at h

/-- C7 amended: for every list of lead records, conversions never exceed
the total lead count; and revenue is non-negative whenever every
record's coerced price is non-negative (the unconditional revenue bound
fails, see the counterexample). -/
theorem C7_amended_metric_bounds (leads : List LeadPage) :
    (extract_lead_metrics leads).conversions ≤ (extract_lead_metrics leads).total_leads ∧
    ((∀ p ∈ leads, 0 ≤ priceOr0 p.price) → 0 ≤ (extract_lead_metrics leads).revenue) := by
  constructor
  · simpa [extract_lead_metrics] using metricsStep_foldl_fst_le leads 0 0
  · intro hp
    simpa [extract_lead_metrics] using metricsStep_foldl_snd_nonneg leads hp 0 0 le_rfl

/-- Witness for `C7_amended_metric_bounds` at a concrete two-record
batch with non-negative prices. -/
theorem C7_amended_metric_bounds_witness :
    (extract_lead_metrics [⟨some "Completed", some (some 3), []⟩, ⟨some "Pending", none, []⟩]).conversions ≤
      (extract_lead_metrics [⟨some "Completed", some (some 3), []⟩, ⟨some "Pending", none, []⟩]).total_leads ∧
    0 ≤ (extract_lead_metrics [⟨some "Completed", some (some 3), []⟩, ⟨some "Pending", none, []⟩]).revenue :=
  ⟨(C7_amended_metric_bounds _).1,
   (C7_amended_metric_bounds [⟨some "Completed", some (some 3), []⟩, ⟨some "Pending", none, []⟩]).2
     (by intro p hp; fin_cases hp <;> simp [priceOr0])⟩

/-! ### C8: conversion-rate safety -/

/-- C8: on the empty batch both variants return cvr = 0 without any
division fault, and on every non-empty batch cvr equals conversions
divided by the total lead count. -/
theorem C8_cvr_safe :
    (extract_lead_metrics []).cvr = 0 ∧
    extract_lead_metrics_main [] = some (extract_lead_metrics []) ∧
    (∀ leads : List LeadPage, leads ≠ [] →
      (extract_lead_metrics leads).cvr =
        ((extract_lead_metrics leads).conversions : Rat) /
          ((extract_lead_metrics leads).total_leads : Rat)) := by
  refine ⟨rfl, rfl, ?_⟩
  intro leads h
  have hlen : 0 < leads.length := List.length_pos.mpr h
  simp [extract_lead_metrics, hlen]

/-- Witness for `C8_cvr_safe` on a concrete non-empty batch. -/
theorem C8_cvr_safe_witness :
    (extract_lead_metrics [⟨some "Completed", some (some 5), []⟩]).cvr =
      ((extract_lead_metrics [⟨some "Completed", some (some 5), []⟩]).conversions : Rat) /
        ((extract_lead_metrics [⟨some "Completed", some (some 5), []⟩]).total_leads : Rat) :=
  C8_cvr_safe.2.2 [⟨some "Completed", some (some 5), []⟩] (by simp)

/-! ### C6: the two main scripts are not the same program -/

/-- C6 counterexample.  The two `create_stripe_checkout_link` variants
do not issue identical requests: src/main.py requests a one-time
`payment` session (8 form fields) while part_000 requests a
`subscription` session with a monthly recurring interval (9 fields).
And the two `extract_lead_metrics` variants do not return equal metrics
on a batch whose Completed record has a null Price: the main.py variant
faults (returns no metrics) while part_000's returns a metrics record. -/
theorem C6_counterexample :
    checkout_data_main "p" 1 ≠ checkout_data_sub "p" 1 ∧
    (checkout_data_main "p" 1).length = 8 ∧
    (checkout_data_sub "p" 1).length = 9 ∧
    extract_lead_metrics_main [⟨some "Completed", some none, []⟩] = none ∧
    (extract_lead_metrics [⟨some "Completed", some none, []⟩]).total_leads = 1 := by
    refine ⟨?_, rfl, rfl, rfl, rfl⟩
    intro h
    have hl := congrArg List.length h
    simp [checkout_data_main, checkout_data_sub] at hl

/-- C6 amended: the scripts are near-duplicates, not the same program.
For every product name and price the checkout-session request bodies
differ (one-time payment vs monthly subscription), and the metric
extractors agree exactly on batches in which no Completed record
carries a null Price (there the main.py variant faults). -/
theorem C6_amended_near_duplicates :
    (∀ (name : String) (price : Int),
      checkout_data_main name price ≠ checkout_data_sub name price) ∧
    (∀ leads : List LeadPage,
      (∀ p ∈ leads, p.payment_status = some "Completed" → p.price ≠ some none) →
      extract_lead_metrics_main leads = some (extract_lead_metrics leads)) := by
  constructor
  · intro name price h
    have hl := congrArg List.length h
    simp [checkout_data_main, checkout_data_sub] at hl
  · intro leads h
    simp only [extract_lead_metrics_main, extract_lead_metrics,
      mainMetricsStep_foldl_agree leads h 0 0]

/-- Witness for `C6_amended_near_duplicates` at concrete inputs. -/
theorem C6_amended_near_duplicates_witness :
    checkout_data_main "AGA" 1480 ≠ checkout_data_sub "AGA" 1480 ∧
    extract_lead_metrics_main [⟨some "Completed", some (some 2), []⟩] =
      some (extract_lead_metrics [⟨some "Completed", some (some 2), []⟩]) :=
  ⟨C6_amended_near_duplicates.1 "AGA" 1480,
   C6_amended_near_duplicates.2 [⟨some "Completed", some (some 2), []⟩]
     (by intro p hp; fin_cases hp; simp)⟩

/-! ### C9: recipient resolution -/

/-- Modelled from the spec's wording of the dedup step
("deduplicate preserving first occurrence"): keep the head, then
recursively deduplicate the tail with all later copies of the head
removed.  Used to compare the source's seen-set loop against the spec's
description. -/
def dedupFirstSpec : List String → List String
  | [] => []
  | u :: rest => u :: dedupFirstSpec (rest.filter (fun v => decide (v ≠ u)))
termination_by l => l.length
decreasing_by
  simp only [List.length_cons]
  exact Nat.lt_succ_of_le (List.length_filter_le _ _)

lemma dedupKeepFirst_sublist : ∀ (l seen : List String), List.Sublist (dedupKeepFirst seen l) l := by
  intro l
  induction l with
  | nil => intro seen; simp [dedupKeepFirst]
  | cons u rest ih =>
      intro seen
      by_cases h : u ≠ "" ∧ u ∉ seen
      · simpa [dedupKeepFirst, h] using (ih (u :: seen)).cons₂ u
      · simpa [dedupKeepFirst, h] using (ih seen).cons u

lemma mem_dedupKeepFirst {x : String} :
    ∀ (l seen : List String), x ∈ dedupKeepFirst seen l → x ∉ seen ∧ x ≠ "" ∧ x ∈ l := by
  intro l
  induction l with
  | nil => intro seen hx; simp [dedupKeepFirst] at hx
  | cons u rest ih =>
      intro seen hx
      by_cases h : u ≠ "" ∧ u ∉ seen
      · rw [dedupKeepFirst, if_pos h] at hx
        rcases List.mem_cons.mp hx with heq | htail
        · subst heq
          exact ⟨h.2, h.1, List.mem_cons_self _ _⟩
        · obtain ⟨hs, hne, hm⟩ := ih (u :: seen) htail
          exact ⟨fun hmem => hs (List.mem_cons_of_mem u hmem), hne, List.mem_cons_of_mem u hm⟩
      · rw [dedupKeepFirst, if_neg h] at hx
        obtain ⟨hs, hne, hm⟩ := ih seen hx
        exact ⟨hs, hne, List.mem_cons_of_mem u hm⟩

lemma dedupKeepFirst_nodup : ∀ (l seen : List String), (dedupKeepFirst seen l).Nodup := by
  intro l
  induction l with
  | nil => intro seen; simp [dedupKeepFirst]
  | cons u rest ih =>
      intro seen
      by_cases h : u ≠ "" ∧ u ∉ seen
      · rw [dedupKeepFirst, if_pos h]
        refine List.nodup_cons.mpr ⟨?_, ih (u :: seen)⟩
        intro hmem
        exact (mem_dedupKeepFirst rest (u :: seen) hmem).1 (List.mem_cons_self _ _)
      · rw [dedupKeepFirst, if_neg h]
        exact ih seen

lemma mem_dedupKeepFirst_of {x : String} (hne : x ≠ "") :
    ∀ (l seen : List String), x ∈ l → x ∉ seen → x ∈ dedupKeepFirst seen l := by
  intro l
  induction l with
  | nil => intro seen hx; simp at hx
  | cons u rest ih =>
      intro seen hx hs
      by_cases h : u ≠ "" ∧ u ∉ seen
      · rw [dedupKeepFirst, if_pos h]
        rcases List.mem_cons.mp hx with heq | htail
        · subst heq; exact List.mem_cons_self _ _
        · by_cases hxu : x = u
          · subst hxu; exact List.mem_cons_self _ _
          · exact List.mem_cons_of_mem u
              (ih (u :: seen) htail (by simp [List.mem_cons, hxu, hs]))
      · rw [dedupKeepFirst, if_neg h]
        rcases List.mem_cons.mp hx with heq | htail
        · subst heq
          rcases not_and_or.mp h with h1 | h2
          · exact absurd (not_not.mp h1) hne
          · exact absurd (not_not.mp h2) hs
        · exact ih seen htail hs

lemma dedupKeepFirst_eq_spec : ∀ (l seen : List String),
    dedupKeepFirst seen l =
      dedupFirstSpec (l.filter (fun v => decide (v ≠ "" ∧ v ∉ seen))) := by
  intro l
  induction l with
  | nil => intro seen; simp [dedupKeepFirst, dedupFirstSpec]
  | cons u rest ih =>
      intro seen
      by_cases h : u ≠ "" ∧ u ∉ seen
      · rw [dedupKeepFirst, if_pos h,
          List.filter_cons_of_pos (p := fun v => decide (v ≠ "" ∧ v ∉ seen)) (by simpa using h),
          dedupFirstSpec, List.filter_filter]
        have hpt : List.filter (fun v => decide (v ≠ u) && decide (v ≠ "" ∧ v ∉ seen)) rest =
            List.filter (fun v => decide (v ≠ "" ∧ v ∉ (u :: seen))) rest := by
          refine List.filter_congr ?_
          intro v _
          by_cases h1 : v = ""
          · simp [h1]
          · by_cases h2 : v = u
            · simp [h1, h2]
            · by_cases h3 : v ∈ seen
              · simp [h1, h2, h3]
              · simp [h1, h2, h3]
        rw [hpt, ← ih (u :: seen)]
      · rw [dedupKeepFirst, if_neg h,
          List.filter_cons_of_neg (p := fun v => decide (v ≠ "" ∧ v ∉ seen)) (by simpa using h),
          ih seen]

/-- C9: the resolved recipient list is duplicate-free, contains no empty
identifier, is an order-preserving sublist of the raw appended list
(each genre's recipients in configured order, then the non-empty
fallback), contains every non-empty identifier of that raw list, and
equals the spec's first-occurrence deduplication of the raw list with
empty identifiers dropped.  (Determinism is immediate: the resolver is a
pure function of the fallback identifier and the configuration.) -/
theorem C9_resolver (lid : String) (cfg : Config) :
    (resolve_notify_user_ids lid cfg).Nodup ∧
    "" ∉ resolve_notify_user_ids lid cfg ∧
    List.Sublist (resolve_notify_user_ids lid cfg) (rawNotifyIds lid cfg) ∧
    (∀ x ∈ rawNotifyIds lid cfg, x ≠ "" → x ∈ resolve_notify_user_ids lid cfg) ∧
    resolve_notify_user_ids lid cfg =
      dedupFirstSpec ((rawNotifyIds lid cfg).filter (fun v => decide (v ≠ ""))) := by
  refine ⟨dedupKeepFirst_nodup _ _, ?_, dedupKeepFirst_sublist _ _, ?_, ?_⟩
  · intro hmem
    exact (mem_dedupKeepFirst _ _ hmem).2.1 rfl
  · intro x hx hne
    exact mem_dedupKeepFirst_of hne _ [] hx (by simp)
  · rw [resolve_notify_user_ids, dedupKeepFirst_eq_spec]
    congr 1
    refine List.filter_congr ?_
    intro v _
    simp

/-- Witness for `C9_resolver` on a concrete configuration with a
duplicate across genres, an empty identifier, and a fallback: the
required member "u3" is in the resolved list. -/
theorem C9_resolver_witness :
    "u3" ∈ resolve_notify_user_ids "u1"
      ⟨[⟨some "A", some 1, none, ["u1", "", "u2"]⟩, ⟨some "B", none, none, ["u2", "u3"]⟩]⟩ :=
  (C9_resolver "u1"
      ⟨[⟨some "A", some 1, none, ["u1", "", "u2"]⟩, ⟨some "B", none, none, ["u2", "u3"]⟩]⟩).2.2.2.1
    "u3" (by simp [rawNotifyIds]) (by decide)

end Bot365
